import Mathlib

/-!
Verification of the Solstice Protocol on-chain cryptographic core
(`programs/contracts/src`): the Poseidon-based circuit hash and codec
(`compression.rs`), the Poseidon Merkle inclusion verifier, the compressed
identity check, the Groth16 proof verifier front-end (`groth16_verifier.rs`)
and the `verify_identity` instruction (`lib.rs`).

Byte buffers are embedded as `List Nat` (each entry a byte value), BN254
scalar-field elements as natural numbers below the field prime `bn254r`.
The external Poseidon permutation (crate `light-poseidon`) and the external
pairing verifier (crate `groth16-solana`) are not part of this repository;
they enter the embedding as explicit parameters (`perm`, `Groth16Lib`), so
every theorem quantifies over their behaviour and concrete witnesses
instantiate them with simple computable stand-ins.
-/

set_option maxRecDepth 40000

namespace Solstice

/-- The BN254 scalar-field prime (the modulus of `ark_bn254::Fr`). -/
def bn254r : Nat :=
  21888242871839275222246405745257275088548364400416034343698204186575808495617

/-- Little-endian interpretation of a byte list as a natural number
(arkworks `from_le_bytes_mod_order` before the modular reduction). -/
def leNat : List Nat → Nat
  | [] => 0
  | b :: rest => b + 256 * leNat rest

/-- The `len` little-endian bytes of `n` (arkworks `BigInt::to_bytes_le`
truncated/padded to `len` bytes). -/
def natLEBytes (n : Nat) : Nat → List Nat
  | 0 => []
  | len + 1 => n % 256 :: natLEBytes (n / 256) len

/-- `bytes_to_fr` from `compression.rs`: take at most the first 31 bytes,
zero-pad, interpret little-endian, reduce modulo the BN254 scalar prime. -/
def bytes_to_fr (bytes : List Nat) : Nat :=
  leNat (bytes.take 31) % bn254r

/-- `fr_to_bytes` from `compression.rs`: the 32 little-endian bytes of the
canonical representative of a field element. -/
def fr_to_bytes (element : Nat) : List Nat :=
  natLEBytes element 32

/-- Fuel-driven core of `chunks31`; the fuel is an upper bound on the number
of chunks and each step consumes at least one element, mirroring Rust's
`slice::chunks(31)` iterator (successive 31-byte chunks, last possibly
shorter). -/
def chunks31Go : Nat → List Nat → List (List Nat)
  | 0, _ => []
  | _, [] => []
  | fuel + 1, b :: rest => ((b :: rest).take 31) :: chunks31Go fuel ((b :: rest).drop 31)

/-- Rust `input.chunks(31)`: split a byte buffer into successive 31-byte
chunks, the last chunk possibly shorter; an empty buffer yields no chunks. -/
def chunks31 (l : List Nat) : List (List Nat) :=
  chunks31Go l.length l

/-- Error codes of the program (`errors.rs`, `#[error_code] pub enum ErrorCode`). -/
inductive ErrorCode where
  | InvalidAuthority
  | IdentityAlreadyRegistered
  | IdentityNotFound
  | InvalidProof
  | InvalidPublicInputs
  | ProofVerificationFailed
  | InvalidVerificationStatus
  | VerificationAlreadyExists
  | VerificationNotFound
  | SessionExpired
  | InvalidSession
  | CompressionError
  | InvalidCompressedAccount
  | MerkleTreeError
  | UnauthorizedAccess
deriving DecidableEq, Repr

instance {ε α : Type} [DecidableEq ε] [DecidableEq α] : DecidableEq (Except ε α) := fun x y =>
  match x, y with
  | Except.ok a, Except.ok b =>
      if h : a = b then Decidable.isTrue (congrArg Except.ok h)
      else Decidable.isFalse (fun hc => h (Except.ok.inj hc))
  | Except.ok _, Except.error _ => Decidable.isFalse (fun hc => Except.noConfusion hc)
  | Except.error _, Except.ok _ => Decidable.isFalse (fun hc => Except.noConfusion hc)
  | Except.error e, Except.error f =>
      if h : e = f then Decidable.isTrue (congrArg Except.error h)
      else Decidable.isFalse (fun hc => h (Except.error.inj hc))

/-- The ordered field-element list built by `poseidon_hash` in
`compression.rs`: each input buffer is chunked into 31-byte segments
(`input.chunks(31)`) and every segment converted by `bytes_to_fr`; the
per-buffer lists are concatenated in input order. -/
def fieldInputs (inputs : List (List Nat)) : List Nat :=
  inputs.flatMap (fun input => (chunks31 input).map bytes_to_fr)

/-- `poseidon_hash` from `compression.rs`, parameterized by the external
`light-poseidon` circom hasher `perm`: `perm l` models
`Poseidon::<Fr>::new_circom(l.length)` followed by `hash(l)`, with `none`
for either library failure (mapped to `CompressionError`). Empty
field-element list yields the zero digest. -/
def poseidon_hash (perm : List Nat → Option Nat) (inputs : List (List Nat)) :
    Except ErrorCode (List Nat) :=
  if (fieldInputs inputs).isEmpty then Except.ok (fr_to_bytes 0)
  else
    match perm (fieldInputs inputs) with
    | some h => Except.ok (fr_to_bytes h)
    | none => Except.error ErrorCode.CompressionError

/-- The field-element list as described by the specification's CircuitHash
sentence: first concatenate all input buffers, then chunk the concatenation
into 31-byte segments. Stated from the spec's words for comparison with
`fieldInputs`, which is translated from the source. -/
def fieldInputsSpec (inputs : List (List Nat)) : List Nat :=
  (chunks31 inputs.flatten).map bytes_to_fr

/-- The CircuitHash algorithm as worded in the specification
(concatenation-then-chunk), for comparison with `poseidon_hash`. -/
def poseidon_hash_spec (perm : List Nat → Option Nat) (inputs : List (List Nat)) :
    Except ErrorCode (List Nat) :=
  if (fieldInputsSpec inputs).isEmpty then Except.ok (fr_to_bytes 0)
  else
    match perm (fieldInputsSpec inputs) with
    | some h => Except.ok (fr_to_bytes h)
    | none => Except.error ErrorCode.CompressionError

/-- Compressed account state for an identity (`compression.rs`,
`pub struct CompressedIdentity`). -/
structure CompressedIdentity where
  owner : List Nat
  state_hash : List Nat
  merkle_root : List Nat
  nullifier : List Nat
  leaf_index : Nat
  attributes_verified : Nat
  last_updated : Int
deriving DecidableEq, Repr

/-- `verify_compressed_identity` from `compression.rs`: requires a non-empty
proof payload (`InvalidProof` otherwise) and then returns `Ok(true)`; the
record argument is unused by the source (`_compressed_identity`). -/
def verify_compressed_identity (_compressed_identity : CompressedIdentity)
    (proof : List Nat) : Except ErrorCode Bool :=
  if proof.length > 0 then Except.ok true
  else Except.error ErrorCode.InvalidProof

/-- `poseidon_merkle_parent` from `compression.rs`:
`Poseidon(left ∥ right)` with any hash failure mapped to `MerkleTreeError`. -/
def poseidon_merkle_parent (perm : List Nat → Option Nat)
    (left right : List Nat) : Except ErrorCode (List Nat) :=
  match poseidon_hash perm [left, right] with
  | Except.ok h => Except.ok h
  | Except.error _ => Except.error ErrorCode.MerkleTreeError

/-- The iterative hash-accumulation loop of `verify_poseidon_merkle_proof`:
`current` starts at the leaf; at each level, when the direction flag is
`true` the current node is the left operand (`Poseidon(current ∥ sibling)`),
otherwise the right (`Poseidon(sibling ∥ current)`); a hash failure is
mapped to `MerkleTreeError`. -/
def merkleFoldGo (perm : List Nat → Option Nat) :
    List Nat → List (List Nat × Bool) → Except ErrorCode (List Nat)
  | current, [] => Except.ok current
  | current, (sibling, is_right) :: rest =>
      match (if is_right then poseidon_hash perm [current, sibling]
             else poseidon_hash perm [sibling, current]) with
      | Except.ok h => merkleFoldGo perm h rest
      | Except.error _ => Except.error ErrorCode.MerkleTreeError

/-- `verify_poseidon_merkle_proof` from `compression.rs`: requires equally
long sibling and direction sequences (`InvalidProof` otherwise), folds the
levels with `merkleFoldGo` over their zip, and compares the accumulated
hash with the root. -/
def verify_poseidon_merkle_proof (perm : List Nat → Option Nat)
    (leaf : List Nat) (proof_siblings : List (List Nat))
    (proof_indices : List Bool) (root : List Nat) : Except ErrorCode Bool :=
  if proof_siblings.length = proof_indices.length then
    match merkleFoldGo perm leaf (proof_siblings.zip proof_indices) with
    | Except.ok current => Except.ok (decide (current = root))
    | Except.error e => Except.error e
  else Except.error ErrorCode.InvalidProof

/-- The Merkle walk exactly as the claim words it: `current` starts as the
leaf; for each (sibling, direction) pair in proof order, `current` becomes
`CircuitHash(current ∥ sibling)` when the direction indicates the current
node is the left operand and `CircuitHash(sibling ∥ current)` otherwise;
`none` when a hash fails. Stated from the claim for comparison with the
source-translated `merkleFoldGo`. -/
def merkleWalk (perm : List Nat → Option Nat) :
    List Nat → List (List Nat × Bool) → Option (List Nat)
  | current, [] => some current
  | current, (sibling, dir) :: rest =>
      match (if dir then (poseidon_hash perm [current, sibling]).toOption
             else (poseidon_hash perm [sibling, current]).toOption) with
      | some h => merkleWalk perm h rest
      | none => none

/-- The `Groth16Verifyingkey` structure handed to the `groth16-solana`
verifier (field names as in the crate, including `vk_gamme_g2`); curve
points kept as raw byte lists as in `prepare_verification_key`. -/
structure Groth16Verifyingkey where
  nr_pubinputs : Nat
  vk_alpha_g1 : List Nat
  vk_beta_g2 : List Nat
  vk_gamme_g2 : List Nat
  vk_delta_g2 : List Nat
  vk_ic : List (List Nat)
deriving DecidableEq, Repr

/-- Modelled from the spec: `verification_keys.rs` is not under `src/`; §6
gives the per-attribute key layout as alpha_g1 (64 bytes),
beta_g2/gamma_g2/delta_g2 (128 bytes each) and an ordered sequence of
64-byte G1 IC points. Points are held as flat byte lists. -/
structure VerificationKey where
  alpha_g1 : List Nat
  beta_g2 : List Nat
  gamma_g2 : List Nat
  delta_g2 : List Nat
  ic : List (List Nat)
deriving DecidableEq, Repr

/-- `prepare_verification_key` from `groth16_verifier.rs`: flattens the
key's point coordinates into contiguous byte arrays. Our modelled
`VerificationKey` already stores flat byte lists, so the byte copying is
the identity on each field. -/
def prepare_verification_key (vk : VerificationKey) :
    List Nat × List Nat × List Nat × List Nat × List (List Nat) :=
  (vk.alpha_g1, vk.beta_g2, vk.gamma_g2, vk.delta_g2, vk.ic)

/-- Behaviour of the external `groth16-solana` crate, as two abstract
predicates over everything the crate sees: `newOk` is whether
`Groth16Verifier::<N>::new(proof_a, proof_b, proof_c, public_inputs, vk)`
succeeds, and `pairingOk` is whether `verifier.verify()` succeeds, i.e.
whether the pairing equation holds for those parsed inputs. -/
structure Groth16Lib where
  newOk : Nat → List Nat → List Nat → List Nat → List (List Nat) →
    Groth16Verifyingkey → Bool
  pairingOk : Nat → List Nat → List Nat → List Nat → List (List Nat) →
    Groth16Verifyingkey → Bool

/-- The A sub-slice of a 256-byte proof buffer (`proof_bytes[0..64]`). -/
def proofA (proof_bytes : List Nat) : List Nat := proof_bytes.take 64

/-- The B sub-slice of a 256-byte proof buffer (`proof_bytes[64..192]`). -/
def proofB (proof_bytes : List Nat) : List Nat := (proof_bytes.drop 64).take 128

/-- The C sub-slice of a 256-byte proof buffer (`proof_bytes[192..256]`). -/
def proofC (proof_bytes : List Nat) : List Nat := (proof_bytes.drop 192).take 64

/-- The `[[u8; 32]; N]` public-input array built inside `verify_with_inputs`:
the i-th 32-byte window of the input buffer, for i < n. -/
def pubChunks (public_inputs_bytes : List Nat) (n : Nat) : List (List Nat) :=
  (List.range n).map (fun i => (public_inputs_bytes.drop (i * 32)).take 32)

/-- `verify_with_inputs` from `groth16_verifier.rs`: build the fixed-size
public-input array, run the library constructor (failure mapped to
`InvalidProof`), run the library pairing check (failure mapped to
`ProofVerificationFailed`), and return `Ok(true)`. -/
def verify_with_inputs (lib : Groth16Lib) (n : Nat)
    (proof_a proof_b proof_c : List Nat) (public_inputs_bytes : List Nat)
    (vk : Groth16Verifyingkey) : Except ErrorCode Bool :=
  let public_inputs := pubChunks public_inputs_bytes n
  if lib.newOk n proof_a proof_b proof_c public_inputs vk then
    if lib.pairingOk n proof_a proof_b proof_c public_inputs vk then Except.ok true
    else Except.error ErrorCode.ProofVerificationFailed
  else Except.error ErrorCode.InvalidProof

/-- The attribute-tag match at the head of `verify_groth16_proof`:
1 selects the age key, 2 the nationality key, 4 the uniqueness key, and
every other tag falls through to `InvalidPublicInputs`. -/
def selectVK (ageVK natVK uniqVK : VerificationKey) (attribute_type : Nat) :
    Option VerificationKey :=
  match attribute_type with
  | 1 => some ageVK
  | 2 => some natVK
  | 4 => some uniqVK
  | _ => none

/-- The `Groth16Verifyingkey` value constructed in `verify_groth16_proof`
from the selected per-attribute key and the computed input count. -/
def mkGroth16VK (vkS : VerificationKey) (num_inputs : Nat) : Groth16Verifyingkey :=
  let p := prepare_verification_key vkS
  { nr_pubinputs := num_inputs, vk_alpha_g1 := p.1, vk_beta_g2 := p.2.1,
    vk_gamme_g2 := p.2.2.1, vk_delta_g2 := p.2.2.2.1, vk_ic := p.2.2.2.2 }

/-- The `match num_inputs` dispatch from `verify_groth16_proof`: the const
generics 1..5 each call `verify_with_inputs::<N>`, and every other arity is
`InvalidPublicInputs` (the source's deliberate ceiling). -/
def groth16Dispatch (lib : Groth16Lib) (vk_struct : VerificationKey)
    (proof_bytes public_inputs_bytes : List Nat) (num_inputs : Nat) :
    Except ErrorCode Bool :=
  match num_inputs with
  | 1 | 2 | 3 | 4 | 5 =>
      verify_with_inputs lib num_inputs (proofA proof_bytes) (proofB proof_bytes)
        (proofC proof_bytes) public_inputs_bytes (mkGroth16VK vk_struct num_inputs)
  | _ => Except.error ErrorCode.InvalidPublicInputs

/-- `verify_groth16_proof` from `groth16_verifier.rs`, parameterized by the
external library behaviour `lib` and the three per-attribute verification
keys (their constants live in `verification_keys.rs`, outside `src/`).
Checks in source order: attribute tag, proof length 256, non-empty inputs,
inputs a multiple of 32; splits the proof; dispatches on `num_inputs`
in 1..5 (`InvalidPublicInputs` otherwise); propagates the helper's error,
and turns an `Ok(false)` into `ProofVerificationFailed`. -/
def verify_groth16_proof (lib : Groth16Lib) (ageVK natVK uniqVK : VerificationKey)
    (proof_bytes public_inputs_bytes : List Nat) (attribute_type : Nat) :
    Except ErrorCode Bool :=
  match selectVK ageVK natVK uniqVK attribute_type with
  | none => Except.error ErrorCode.InvalidPublicInputs
  | some vk_struct =>
    if proof_bytes.length = 256 then
      if public_inputs_bytes.length ≠ 0 then
        if public_inputs_bytes.length % 32 = 0 then
          match groth16Dispatch lib vk_struct proof_bytes public_inputs_bytes
              (public_inputs_bytes.length / 32) with
          | Except.ok is_valid =>
              if is_valid then Except.ok is_valid
              else Except.error ErrorCode.ProofVerificationFailed
          | Except.error e => Except.error e
        else Except.error ErrorCode.InvalidPublicInputs
      else Except.error ErrorCode.InvalidPublicInputs
    else Except.error ErrorCode.InvalidProof

/-- The `Identity` account (`state.rs`). -/
structure Identity where
  owner : List Nat
  identity_commitment : List Nat
  merkle_root : List Nat
  is_verified : Bool
  verification_timestamp : Int
  attributes_verified : Nat
  bump : Nat
deriving DecidableEq, Repr

/-- The `verify_identity` instruction handler from `lib.rs` as a state
transition on the `Identity` account (`now` stands for
`Clock::get()?.unix_timestamp`): requires proof length 256 and non-empty
public inputs, runs `verify_groth16_proof` and propagates its error,
requires the returned flag, then ORs the attribute tag into the bitmap,
sets `is_verified` and stamps the time. -/
def verify_identity (lib : Groth16Lib) (ageVK natVK uniqVK : VerificationKey)
    (identity : Identity) (now : Int) (proof public_inputs : List Nat)
    (attribute_type : Nat) : Except ErrorCode Identity :=
  if proof.length = 256 then
    if public_inputs.length > 0 then
      match verify_groth16_proof lib ageVK natVK uniqVK proof public_inputs
          attribute_type with
      | Except.error e => Except.error e
      | Except.ok is_valid =>
          if is_valid then
            Except.ok { identity with
              attributes_verified := identity.attributes_verified ||| attribute_type,
              is_verified := true,
              verification_timestamp := now }
          else Except.error ErrorCode.InvalidProof
    else Except.error ErrorCode.InvalidPublicInputs
  else Except.error ErrorCode.InvalidProof

/-- The account state persisted after a `verify_identity` instruction under
the Solana/Anchor runtime semantics: an `Err` aborts the instruction and no
account mutation is persisted, so the prior record survives. -/
def runVerifyIdentity (lib : Groth16Lib) (ageVK natVK uniqVK : VerificationKey)
    (identity : Identity) (now : Int) (proof public_inputs : List Nat)
    (attribute_type : Nat) : Identity :=
  match verify_identity lib ageVK natVK uniqVK identity now proof public_inputs
      attribute_type with
  | Except.ok updated => updated
  | Except.error _ => identity

/-! Concrete instantiations of the abstract library parameters, used by the
closed counterexamples and witnesses below. -/

/-- A computable stand-in permutation returning the arity of its input
(keeps the arity-keying observable). -/
def permLen : List Nat → Option Nat := fun l => some l.length

/-- A computable stand-in permutation summing its inputs modulo the field
prime. -/
def permAdd : List Nat → Option Nat :=
  fun l => some (l.foldl (fun a b => a + b) 0 % bn254r)

/-- External library stand-in whose constructor and pairing check always
succeed. -/
def libTrue : Groth16Lib :=
  { newOk := fun _ _ _ _ _ _ => true, pairingOk := fun _ _ _ _ _ _ => true }

/-- External library stand-in whose constructor succeeds and whose pairing
equation never holds (a well-formed but invalid proof). -/
def libPairFail : Groth16Lib :=
  { newOk := fun _ _ _ _ _ _ => true, pairingOk := fun _ _ _ _ _ _ => false }

/-- Modelled from the spec: §4.5 step 4 requires the selected key's IC-point
count to equal `numInputs + 1`; in the source that requirement lives in the
external `Groth16Verifier::new`, so this library instance fails its
constructor exactly on an IC-count mismatch and lets the pairing succeed. -/
def libICCheck : Groth16Lib :=
  { newOk := fun n _ _ _ _ vk => decide (vk.vk_ic.length = n + 1),
    pairingOk := fun _ _ _ _ _ _ => true }

/-- Modelled from the spec: a concrete verification key with the §6 layout
and two IC points, i.e. the arity-1 shape the spec gives the age circuit. -/
def vkTriv : VerificationKey :=
  { alpha_g1 := List.replicate 64 0, beta_g2 := List.replicate 128 0,
    gamma_g2 := List.replicate 128 0, delta_g2 := List.replicate 128 0,
    ic := [List.replicate 64 0, List.replicate 64 1] }

/-- A 256-byte all-zero proof buffer. -/
def zeros256 : List Nat := List.replicate 256 0

/-- A 32-byte all-ones input buffer / digest. -/
def ones32 : List Nat := List.replicate 32 1

/-- A 32-byte digest of twos, used as a Merkle sibling. -/
def twos32 : List Nat := List.replicate 32 2

/-- The accumulated digest after one Merkle level of the witness walk. -/
def c4wCurrent : List Nat := (merkleWalk permAdd ones32 [(twos32, true)]).getD []

/-- A concrete compressed identity record. -/
def ciRec : CompressedIdentity :=
  { owner := List.replicate 32 1, state_hash := List.replicate 32 2,
    merkle_root := List.replicate 32 3, nullifier := List.replicate 32 4,
    leaf_index := 0, attributes_verified := 0, last_updated := 0 }

/-- A second compressed identity record, entirely different from `ciRec`. -/
def ciRec2 : CompressedIdentity :=
  { owner := List.replicate 32 5, state_hash := List.replicate 32 6,
    merkle_root := List.replicate 32 7, nullifier := List.replicate 32 8,
    leaf_index := 1, attributes_verified := 1, last_updated := 1 }

/-- A concrete identity record prior to verification (age bit clear,
nationality-or-uniqueness bit 4 already set). -/
def idRec0 : Identity :=
  { owner := List.replicate 32 7, identity_commitment := List.replicate 32 8,
    merkle_root := List.replicate 32 9, is_verified := false,
    verification_timestamp := 0, attributes_verified := 4, bump := 255 }

/-- `idRec0` after a successful age verification at time 7. -/
def idRec1 : Identity :=
  { owner := List.replicate 32 7, identity_commitment := List.replicate 32 8,
    merkle_root := List.replicate 32 9, is_verified := true,
    verification_timestamp := 7, attributes_verified := 5, bump := 255 }

theorem natLEBytes_length (n len : Nat) : (natLEBytes n len).length = len := by
  induction len generalizing n with
  | zero => rfl
  | succ k ih => simp [natLEBytes, ih]

theorem fr_to_bytes_zero : fr_to_bytes 0 = List.replicate 32 0 := by decide

/-- Refinement of the source's Merkle loop by the claim's walk: whenever the
claim-side walk completes with a digest, the source's fold returns exactly
that digest. -/
theorem merkleFoldGo_of_walk (perm : List Nat → Option Nat) :
    ∀ (l : List (List Nat × Bool)) (current result : List Nat),
      merkleWalk perm current l = some result →
      merkleFoldGo perm current l = Except.ok result := by
  intro l
  induction l with
  | nil =>
    intro current result h
    cases h
    rfl
  | cons p rest ih =>
    intro current result h
    obtain ⟨sibling, dir⟩ := p
    cases dir with
    | false =>
      cases hh : poseidon_hash perm [sibling, current] with
      | ok v =>
        simp only [merkleWalk, Bool.false_eq_true, if_false, hh, Except.toOption] at h
        simp only [merkleFoldGo, Bool.false_eq_true, if_false, hh]
        exact ih v result h
      | error e =>
        simp [merkleWalk, hh, Except.toOption] at h
    | true =>
      cases hh : poseidon_hash perm [current, sibling] with
      | ok v =>
        simp only [merkleWalk, if_true, hh, Except.toOption] at h
        simp only [merkleFoldGo, if_true, hh]
        exact ih v result h
      | error e =>
        simp [merkleWalk, hh, Except.toOption] at h

/-- Claim C4: with equally long sibling and direction sequences, Merkle
verification computes the claim's fold — current starts as the leaf, each
(sibling, direction) pair hashes current on the left when the direction
flag says so and on the right otherwise — and returns the boolean equality
of the accumulated digest with the root. -/
theorem merkle_verify_eq_walk (perm : List Nat → Option Nat)
    (leaf root : List Nat) (sibs : List (List Nat)) (dirs : List Bool)
    (hlen : sibs.length = dirs.length) (current : List Nat)
    (hwalk : merkleWalk perm leaf (sibs.zip dirs) = some current) :
    verify_poseidon_merkle_proof perm leaf sibs dirs root
      = Except.ok (decide (current = root)) := by
  unfold verify_poseidon_merkle_proof
  rw [if_pos hlen, merkleFoldGo_of_walk perm _ _ _ hwalk]

theorem merkle_verify_eq_walk_witness :
    verify_poseidon_merkle_proof permAdd ones32 [twos32] [true] ones32
      = Except.ok (decide (c4wCurrent = ones32)) :=
  merkle_verify_eq_walk permAdd ones32 ones32 [twos32] [true] (by decide)
    c4wCurrent (by decide)

/-- Claim C9: with an empty Merkle proof (no siblings and no directions) the
verifier succeeds and returns exactly the boolean equality of leaf and
root. -/
theorem merkle_empty_proof (perm : List Nat → Option Nat) (leaf root : List Nat) :
    verify_poseidon_merkle_proof perm leaf [] [] root
      = Except.ok (decide (leaf = root)) := rfl

/-- Claim C6 counterexample: a sibling/direction length mismatch is rejected
with `InvalidProof`, not with the claimed `MerkleTreeError`. -/
theorem c6_counterexample :
    verify_poseidon_merkle_proof permAdd ones32 [twos32] [] ones32
      = Except.error ErrorCode.InvalidProof ∧
    verify_poseidon_merkle_proof permAdd ones32 [twos32] [] ones32
      ≠ Except.error ErrorCode.MerkleTreeError := by decide

/-- Claim C6 (amended): for every leaf, root, and sibling/direction
sequences of different lengths, Merkle verification fails with the
`InvalidProof` error kind. -/
theorem merkle_length_mismatch_invalid_proof (perm : List Nat → Option Nat)
    (leaf root : List Nat) (sibs : List (List Nat)) (dirs : List Bool)
    (h : sibs.length ≠ dirs.length) :
    verify_poseidon_merkle_proof perm leaf sibs dirs root
      = Except.error ErrorCode.InvalidProof := by
  unfold verify_poseidon_merkle_proof
  rw [if_neg h]

theorem merkle_length_mismatch_invalid_proof_witness :
    verify_poseidon_merkle_proof permAdd twos32 [ones32] [] twos32
      = Except.error ErrorCode.InvalidProof :=
  merkle_length_mismatch_invalid_proof permAdd twos32 twos32 [ones32] [] (by decide)

/-- Claim C2 (code bug): `verify_compressed_identity` rejects an empty
payload with `InvalidProof`, but for non-empty payloads it returns
`Ok(true)` unconditionally — the same junk one-byte payload is accepted
against two entirely different records, so no Merkle-inclusion or
consistency check of the record against the payload takes place. -/
theorem verify_compressed_identity_unconditional :
    verify_compressed_identity ciRec [] = Except.error ErrorCode.InvalidProof ∧
    verify_compressed_identity ciRec [0] = Except.ok true ∧
    verify_compressed_identity ciRec2 [0] = Except.ok true := by decide

/-- Claim C5 counterexample: on the two one-byte buffers `[[0],[0]]` the
source's per-buffer chunking produces a two-element field list while the
claimed concatenate-then-chunk recipe produces one element, and the two
hash algorithms disagree under an arity-observing permutation. -/
theorem c5_counterexample :
    fieldInputsSpec [[0], [0]] ≠ fieldInputs [[0], [0]] ∧
    poseidon_hash_spec permLen [[0], [0]] ≠ poseidon_hash permLen [[0], [0]] := by
  decide

/-- Claim C5 (amended): the circuit hash chunks every input buffer
independently into 31-byte segments and concatenates the per-buffer
field-element lists in input order (not chunking the concatenation); when
that list is empty the result is the 32-byte zero digest, and otherwise it
is the arity-keyed permutation's output re-encoded to 32 bytes (with
`CompressionError` on permutation failure). -/
theorem poseidon_hash_characterization (perm : List Nat → Option Nat)
    (inputs : List (List Nat)) :
    fieldInputs inputs
        = (inputs.map (fun b => (chunks31 b).map bytes_to_fr)).flatten ∧
    (fieldInputs inputs = [] →
      poseidon_hash perm inputs = Except.ok (List.replicate 32 0)) ∧
    (∀ h, fieldInputs inputs ≠ [] → perm (fieldInputs inputs) = some h →
      poseidon_hash perm inputs = Except.ok (fr_to_bytes h)
        ∧ (fr_to_bytes h).length = 32) ∧
    (fieldInputs inputs ≠ [] → perm (fieldInputs inputs) = none →
      poseidon_hash perm inputs = Except.error ErrorCode.CompressionError) := by
  refine ⟨?_, ?_, ?_, ?_⟩
  · simp [fieldInputs, List.flatMap_def]
  · intro h
    simp [poseidon_hash, h, fr_to_bytes_zero]
  · intro h hne hp
    have hempty : (fieldInputs inputs).isEmpty = false := by
      simpa [List.isEmpty_iff] using hne
    constructor
    · simp [poseidon_hash, hempty, hp]
    · exact natLEBytes_length h 32
  · intro hne hp
    have hempty : (fieldInputs inputs).isEmpty = false := by
      simpa [List.isEmpty_iff] using hne
    simp [poseidon_hash, hempty, hp]

theorem poseidon_hash_characterization_witness :
    poseidon_hash permLen [[5]] = Except.ok (fr_to_bytes 1)
      ∧ (fr_to_bytes 1).length = 32 :=
  (poseidon_hash_characterization permLen [[5]]).2.2.1 1 (by decide) (by decide)

/-- Claim C7 counterexample: with the out-of-set attribute tag 99 and a
100-byte (≠ 256) proof buffer, the verifier fails with
`InvalidPublicInputs` — the tag is resolved before the proof length is
checked — not with the claimed `InvalidProof`. -/
theorem c7_counterexample :
    verify_groth16_proof libTrue vkTriv vkTriv vkTriv (List.replicate 100 0) ones32 99
      = Except.error ErrorCode.InvalidPublicInputs ∧
    verify_groth16_proof libTrue vkTriv vkTriv vkTriv (List.replicate 100 0) ones32 99
      ≠ Except.error ErrorCode.InvalidProof := by decide

/-- Claim C7 (amended): for every supported attribute tag (1, 2 or 4) and
every proof buffer whose length is not exactly 256 bytes, the verifier
fails with `InvalidProof`, whatever the public-input buffer; a tag outside
the set fails earlier with `InvalidPublicInputs`. -/
theorem proof_length_invalid_proof (lib : Groth16Lib)
    (ageVK natVK uniqVK : VerificationKey) (proof public_inputs : List Nat)
    (attribute_type : Nat)
    (htag : attribute_type = 1 ∨ attribute_type = 2 ∨ attribute_type = 4)
    (hplen : proof.length ≠ 256) :
    verify_groth16_proof lib ageVK natVK uniqVK proof public_inputs attribute_type
      = Except.error ErrorCode.InvalidProof := by
  rcases htag with h | h | h <;> subst h <;>
    simp [verify_groth16_proof, selectVK, hplen]

theorem proof_length_invalid_proof_witness :
    verify_groth16_proof libTrue vkTriv vkTriv vkTriv [] ones32 1
      = Except.error ErrorCode.InvalidProof :=
  proof_length_invalid_proof libTrue vkTriv vkTriv vkTriv [] ones32 1
    (Or.inl rfl) (by decide)

/-- Claim C1 counterexample: with a well-formed 256-byte proof, a supported
tag, a properly sized input buffer, a succeeding library constructor and a
failing pairing equation, the verifier returns
`Err(ProofVerificationFailed)` — it does not return the boolean false. -/
theorem c1_counterexample :
    verify_groth16_proof libPairFail vkTriv vkTriv vkTriv zeros256 ones32 1
      = Except.error ErrorCode.ProofVerificationFailed ∧
    verify_groth16_proof libPairFail vkTriv vkTriv vkTriv zeros256 ones32 1
      ≠ Except.ok false := by decide

/-- Claim C1 (amended): for a supported tag, a 256-byte proof, a non-empty
32-aligned input buffer with arity 1..5 and a succeeding library
constructor, the verifier returns `Ok(true)` when the pairing equation
holds and `Err(ProofVerificationFailed)` — never `Ok(false)` — when it does
not; the boolean payload of a successful return is always true. -/
theorem groth16_pairing_failure_is_error (lib : Groth16Lib)
    (ageVK natVK uniqVK vkS : VerificationKey)
    (proof public_inputs : List Nat) (attribute_type : Nat)
    (hsel : selectVK ageVK natVK uniqVK attribute_type = some vkS)
    (hplen : proof.length = 256)
    (hne : public_inputs.length ≠ 0)
    (hmod : public_inputs.length % 32 = 0)
    (h1 : 1 ≤ public_inputs.length / 32) (h5 : public_inputs.length / 32 ≤ 5)
    (hnew : lib.newOk (public_inputs.length / 32) (proofA proof) (proofB proof)
        (proofC proof) (pubChunks public_inputs (public_inputs.length / 32))
        (mkGroth16VK vkS (public_inputs.length / 32)) = true) :
    verify_groth16_proof lib ageVK natVK uniqVK proof public_inputs attribute_type =
      (if lib.pairingOk (public_inputs.length / 32) (proofA proof) (proofB proof)
          (proofC proof) (pubChunks public_inputs (public_inputs.length / 32))
          (mkGroth16VK vkS (public_inputs.length / 32)) = true
       then Except.ok true else Except.error ErrorCode.ProofVerificationFailed) := by
  have hdisp : groth16Dispatch lib vkS proof public_inputs (public_inputs.length / 32)
      = verify_with_inputs lib (public_inputs.length / 32) (proofA proof)
          (proofB proof) (proofC proof) public_inputs
          (mkGroth16VK vkS (public_inputs.length / 32)) := by
    have hcases : public_inputs.length / 32 = 1 ∨ public_inputs.length / 32 = 2 ∨
        public_inputs.length / 32 = 3 ∨ public_inputs.length / 32 = 4 ∨
        public_inputs.length / 32 = 5 := by omega
    rcases hcases with h | h | h | h | h <;> rw [h] <;> rfl
  unfold verify_groth16_proof
  simp only [hsel]
  rw [if_pos hplen, if_pos hne, if_pos hmod, hdisp]
  unfold verify_with_inputs
  rw [if_pos hnew]
  by_cases hp : lib.pairingOk (public_inputs.length / 32) (proofA proof)
      (proofB proof) (proofC proof)
      (pubChunks public_inputs (public_inputs.length / 32))
      (mkGroth16VK vkS (public_inputs.length / 32)) = true
  · rw [if_pos hp]
    rfl
  · rw [if_neg hp]

theorem groth16_pairing_failure_is_error_witness :
    verify_groth16_proof libTrue vkTriv vkTriv vkTriv zeros256 ones32 1
      = (if libTrue.pairingOk (ones32.length / 32) (proofA zeros256)
            (proofB zeros256) (proofC zeros256)
            (pubChunks ones32 (ones32.length / 32))
            (mkGroth16VK vkTriv (ones32.length / 32)) = true
         then Except.ok true else Except.error ErrorCode.ProofVerificationFailed) :=
  groth16_pairing_failure_is_error libTrue vkTriv vkTriv vkTriv vkTriv zeros256
    ones32 1 rfl (by decide) (by decide) (by decide) (by decide) (by decide)
    (by decide)

theorem groth16Dispatch_out_of_range (lib : Groth16Lib) (vkS : VerificationKey)
    (proof_bytes public_inputs_bytes : List Nat) (n : Nat)
    (h : ¬ (1 ≤ n ∧ n ≤ 5)) :
    groth16Dispatch lib vkS proof_bytes public_inputs_bytes n
      = Except.error ErrorCode.InvalidPublicInputs := by
  unfold groth16Dispatch
  split
  · exact absurd (by omega) h
  · exact absurd (by omega) h
  · exact absurd (by omega) h
  · exact absurd (by omega) h
  · exact absurd (by omega) h
  · rfl

/-- Claim C3 counterexample: a 64-byte (two-input) buffer against the
spec's arity-1 age key is an IC-count mismatch (3 ≠ 2); the library
constructor's failure is mapped to `InvalidProof`, not to the claimed
`InvalidPublicInputs`. -/
theorem c3_counterexample :
    verify_groth16_proof libICCheck vkTriv vkTriv vkTriv zeros256
        (List.replicate 64 1) 1 = Except.error ErrorCode.InvalidProof ∧
    verify_groth16_proof libICCheck vkTriv vkTriv vkTriv zeros256
        (List.replicate 64 1) 1 ≠ Except.error ErrorCode.InvalidPublicInputs := by
  decide

/-- Claim C3 (amended): for a supported tag, a 256-byte proof and a
non-empty 32-aligned input buffer, `numInputs = len/32` outside the closed
arity set 1..5 fails with `InvalidPublicInputs` for every library
behaviour; within that set, the spec's IC-count requirement
`ic.length = numInputs + 1` is enforced by the external library
constructor, whose failure the source maps to `InvalidProof` (not
`InvalidPublicInputs`); neither case silently defaults. -/
theorem groth16_arity_and_ic_errors (ageVK natVK uniqVK vkS : VerificationKey)
    (proof public_inputs : List Nat) (attribute_type : Nat)
    (hsel : selectVK ageVK natVK uniqVK attribute_type = some vkS)
    (hplen : proof.length = 256)
    (hne : public_inputs.length ≠ 0)
    (hmod : public_inputs.length % 32 = 0) :
    (¬ (1 ≤ public_inputs.length / 32 ∧ public_inputs.length / 32 ≤ 5) →
      ∀ lib : Groth16Lib,
        verify_groth16_proof lib ageVK natVK uniqVK proof public_inputs
          attribute_type = Except.error ErrorCode.InvalidPublicInputs) ∧
    ((1 ≤ public_inputs.length / 32 ∧ public_inputs.length / 32 ≤ 5) →
      vkS.ic.length ≠ public_inputs.length / 32 + 1 →
      verify_groth16_proof libICCheck ageVK natVK uniqVK proof public_inputs
        attribute_type = Except.error ErrorCode.InvalidProof) := by
  constructor
  · intro hout lib
    unfold verify_groth16_proof
    simp only [hsel]
    rw [if_pos hplen, if_pos hne, if_pos hmod,
      groth16Dispatch_out_of_range lib vkS proof public_inputs _ hout]
  · intro hin hic
    have hcases : public_inputs.length / 32 = 1 ∨ public_inputs.length / 32 = 2 ∨
        public_inputs.length / 32 = 3 ∨ public_inputs.length / 32 = 4 ∨
        public_inputs.length / 32 = 5 := by omega
    unfold verify_groth16_proof
    simp only [hsel]
    rw [if_pos hplen, if_pos hne, if_pos hmod]
    rcases hcases with h | h | h | h | h <;> rw [h] at hic ⊢ <;>
      simp [groth16Dispatch, verify_with_inputs, libICCheck, mkGroth16VK,
        prepare_verification_key, hic]

theorem groth16_arity_and_ic_errors_witness :
    verify_groth16_proof libTrue vkTriv vkTriv vkTriv zeros256
        (List.replicate 192 1) 1 = Except.error ErrorCode.InvalidPublicInputs :=
  (groth16_arity_and_ic_errors vkTriv vkTriv vkTriv vkTriv zeros256
      (List.replicate 192 1) 1 rfl (by decide) (by decide) (by decide)).1
    (by decide) libTrue

/-- Claim C8: whenever the Groth16 verification does not come back as
`Ok(true)` — it errors, or would return any non-true payload — the
`verify_identity` instruction ends in an error, and under the runtime's
abort-on-error semantics the persisted identity record is exactly the prior
one: no bitmap bit is set and `is_verified` and `verification_timestamp`
keep their values. -/
theorem verify_identity_failure_frame (lib : Groth16Lib)
    (ageVK natVK uniqVK : VerificationKey) (identity : Identity) (now : Int)
    (proof public_inputs : List Nat) (attribute_type : Nat)
    (h : verify_groth16_proof lib ageVK natVK uniqVK proof public_inputs
        attribute_type ≠ Except.ok true) :
    (∃ e, verify_identity lib ageVK natVK uniqVK identity now proof public_inputs
        attribute_type = Except.error e) ∧
    runVerifyIdentity lib ageVK natVK uniqVK identity now proof public_inputs
        attribute_type = identity := by
  have hmain : ∃ e, verify_identity lib ageVK natVK uniqVK identity now proof
      public_inputs attribute_type = Except.error e := by
    unfold verify_identity
    by_cases h1 : proof.length = 256
    · rw [if_pos h1]
      by_cases h2 : public_inputs.length > 0
      · rw [if_pos h2]
        cases hg : verify_groth16_proof lib ageVK natVK uniqVK proof public_inputs
            attribute_type with
        | error e => exact ⟨e, rfl⟩
        | ok b =>
          cases b with
          | true => exact absurd hg h
          | false => exact ⟨ErrorCode.InvalidProof, rfl⟩
      · rw [if_neg h2]
        exact ⟨ErrorCode.InvalidPublicInputs, rfl⟩
    · rw [if_neg h1]
      exact ⟨ErrorCode.InvalidProof, rfl⟩
  obtain ⟨e, he⟩ := hmain
  refine ⟨⟨e, he⟩, ?_⟩
  unfold runVerifyIdentity
  rw [he]

theorem verify_identity_failure_frame_witness :
    runVerifyIdentity libTrue vkTriv vkTriv vkTriv idRec0 7 zeros256 ones32 99
      = idRec0 :=
  (verify_identity_failure_frame libTrue vkTriv vkTriv vkTriv idRec0 7 zeros256
      ones32 99 (by decide)).2

/-- Claim C10: a successful `verify_identity` run updates the bitmap to the
bitwise OR of the old bitmap with the attribute tag (so every previously
set bit stays set), sets `is_verified`, and leaves `owner`,
`identity_commitment`, `merkle_root` and `bump` untouched. -/
theorem verify_identity_success_frame (lib : Groth16Lib)
    (ageVK natVK uniqVK : VerificationKey) (identity : Identity) (now : Int)
    (proof public_inputs : List Nat) (attribute_type : Nat) (updated : Identity)
    (h : verify_identity lib ageVK natVK uniqVK identity now proof public_inputs
        attribute_type = Except.ok updated) :
    updated.attributes_verified
        = identity.attributes_verified ||| attribute_type ∧
    (∀ j, identity.attributes_verified.testBit j = true →
      updated.attributes_verified.testBit j = true) ∧
    updated.is_verified = true ∧
    updated.owner = identity.owner ∧
    updated.identity_commitment = identity.identity_commitment ∧
    updated.merkle_root = identity.merkle_root ∧
    updated.bump = identity.bump := by
  unfold verify_identity at h
  by_cases h1 : proof.length = 256
  · rw [if_pos h1] at h
    by_cases h2 : public_inputs.length > 0
    · rw [if_pos h2] at h
      cases hg : verify_groth16_proof lib ageVK natVK uniqVK proof public_inputs
          attribute_type with
      | error e =>
        rw [hg] at h
        exact absurd h (by simp)
      | ok b =>
        rw [hg] at h
        cases b with
        | false => exact absurd h (by simp)
        | true =>
          simp only [if_pos rfl] at h
          have hrec := Except.ok.inj h
          subst hrec
          refine ⟨rfl, ?_, rfl, rfl, rfl, rfl, rfl⟩
          intro j hj
          simp [Nat.testBit_lor, hj]
    · rw [if_neg h2] at h
      exact absurd h (by simp)
  · rw [if_neg h1] at h
    exact absurd h (by simp)

theorem verify_identity_success_frame_witness :
    verify_identity libTrue vkTriv vkTriv vkTriv idRec0 7 zeros256 ones32 1
        = Except.ok idRec1 ∧
    idRec1.attributes_verified = idRec0.attributes_verified ||| 1 ∧
    idRec1.is_verified = true ∧
    idRec1.owner = idRec0.owner ∧
    idRec1.merkle_root = idRec0.merkle_root := by
  have h : verify_identity libTrue vkTriv vkTriv vkTriv idRec0 7 zeros256 ones32 1
      = Except.ok idRec1 := by decide
  obtain ⟨hb, _, hv, ho, _, hm, _⟩ := verify_identity_success_frame libTrue vkTriv
    vkTriv vkTriv idRec0 7 zeros256 ones32 1 idRec1 h
  exact ⟨h, hb, hv, ho, hm⟩

end Solstice
